import Mathlib

/-!
Shallow embedding of `robust-equilibrium-lib` (files `src/static_equilibrium.cpp`
and `src/util.cpp`) over an arbitrary linear ordered field `α` standing for
exact `double` arithmetic.  Transcendental and root operations (`M_PI`, `sin`,
`cos`, Eigen's `norm`/`normalize`) are passed in as an explicit `ScalarOps`
oracle; the external LP solver and the cddlib double-description delegate are
likewise modelled as oracle functions, matching the spec's view of them as
opaque collaborators.
-/

namespace RobustEquilibrium

variable {α : Type} [LinearOrderedField α]

/-- A 3d vector (Eigen `Vector3`). -/
abbrev Vec3 (α : Type) := Fin 3 → α

/-- A 6d vector (Eigen `Vector6`). -/
abbrev Vec6 (α : Type) := Fin 6 → α

/-- Oracle for the scalar operations the source takes from `<cmath>` / Eigen:
`M_PI`, `sin`, `cos`, and the square root used by Eigen's `norm()`. -/
structure ScalarOps (α : Type) where
  pi : α
  sin : α → α
  cos : α → α
  sqrt : α → α

/-- Eigen dot product of two 3d vectors. -/
def dot3 (u v : Vec3 α) : α := u 0 * v 0 + u 1 * v 1 + u 2 * v 2

/-- Eigen cross product of two 3d vectors. -/
def cross3 (u v : Vec3 α) : Vec3 α :=
  ![u 1 * v 2 - u 2 * v 1, u 2 * v 0 - u 0 * v 2, u 0 * v 1 - u 1 * v 0]

/-- Eigen `norm()`: square root of the dot product with itself. -/
def norm3 (ops : ScalarOps α) (v : Vec3 α) : α := ops.sqrt (dot3 v v)

/-- Eigen `normalize()`: divide each entry by the norm (exact-field model;
division by a zero norm is the Lean zero-division convention). -/
def normalize3 (ops : ScalarOps α) (v : Vec3 α) : Vec3 α :=
  fun i => v i / norm3 ops v

/-- Transcription of `Vector3::UnitX()`. -/
def unitX : Vec3 α := ![1, 0, 0]

/-- Transcription of `Vector3::UnitY()`. -/
def unitY : Vec3 α := ![0, 1, 0]

/-- The all-zero 3d vector, used as the out-of-range default when reading the
contact lists. -/
def zero3 : Vec3 α := ![0, 0, 0]

/-- Transcription of `crossMatrix` from `src/util.cpp`: the antisymmetric matrix such that
`crossMatrix x *ᵥ y = x × y`.  Entries transcribed from the source. -/
def crossMatrix (x : Vec3 α) : Fin 3 → Fin 3 → α :=
  ![![0, -(x 2), x 1], ![x 2, 0, -(x 0)], ![-(x 1), x 0, 0]]

/-- The `LP_status` result enum of the external LP solver (declared in a header
that is not under `src/`; constructors modelled from the spec's list
OPTIMAL, INFEASIBLE, UNBOUNDED, ERROR). -/
inductive LPStatus where
  | OPTIMAL
  | INFEASIBLE
  | UNBOUNDED
  | ERROR
deriving DecidableEq

/-- The `SolverLP` backend selector (declared in a header not under `src/`;
`SOLVER_LP_QPOASES` is the one the source names, a second backend stands for
all others). -/
inductive SolverLP where
  | QPOASES
  | OTHER
deriving DecidableEq

/-- The `StaticEquilibriumAlgorithm` selector, constructors named after
`STATIC_EQUILIBRIUM_ALGORITHM_{LP,LP2,DLP,PP,IP,DIP}`. -/
inductive Algorithm where
  | LP
  | LP2
  | DLP
  | PP
  | IP
  | DIP
deriving DecidableEq

/-- One LP instance as handed to `Solver_LP_abstract::solve(c, lb, ub, A, Alb,
Aub, sol)`.  Matrices and vectors are total functions with the dimensions
recorded alongside; entries beyond the recorded dimensions are phantom. -/
structure LPData (α : Type) where
  nVars : ℕ
  mCons : ℕ
  c : ℕ → α
  lb : ℕ → α
  ub : ℕ → α
  A : ℕ → ℕ → α
  Alb : ℕ → α
  Aub : ℕ → α

/-- What the external solver hands back: the status, the solution vector and
`getObjectiveValue()`. -/
structure LPResult (α : Type) where
  status : LPStatus
  sol : ℕ → α
  obj : α

/-- The external LP solver as an opaque oracle. -/
abbrev LPSolver (α : Type) := LPData α → LPResult α

/-- A cddlib-style matrix as produced by `cone_span_eigen_to_cdd`
(`dd_MatrixPtr` input side): `rows` generators, `cols` homogeneous columns. -/
structure DDMat (α : Type) where
  rows : ℕ
  cols : ℕ
  mat : ℕ → ℕ → α

/-- What `dd_DDMatrix2Poly` + `dd_CopyInequalities` hand back: the inequality
matrix `b_A` with its `linset` (1-based set of equality rows; `linsetSize`
models `linset[0]`, the ground-set size). -/
structure CddMatrix (α : Type) where
  rowsize : ℕ
  colsize : ℕ
  linsetSize : ℕ
  linset : ℕ → Bool
  mat : ℕ → ℕ → α

/-- The cddlib double-description delegate as an opaque oracle; `none` models
`error != dd_NoError`. -/
abbrev CddOracle (α : Type) := DDMat α → Option (CddMatrix α)

/-- A half-space system `H·x ≤ h` with `rows` rows (the engine's `m_H`, `m_h`). -/
structure HRep (α : Type) where
  H : ℕ → ℕ → α
  h : ℕ → α
  rows : ℕ

/-- Values standing for uninitialized memory the source can expose: the entries
of `m_G_centr` after an Eigen `resize` that a failed loop never writes, and the
entries of `m_H` / `m_h` the equality-append loop leaves unwritten. -/
structure UninitMem (α : Type) where
  Gcol : ℕ → Vec6 α
  Hent : ℕ → ℕ → α
  hent : ℕ → α

/-- The `StaticEquilibrium` object state: every data member of the C++ class
that the core logic reads or writes.  `G_centr` is stored column-wise
(`G_centr k` is column `k` of the 6×`G_cols` matrix `m_G_centr`). -/
structure StaticEquilibrium (α : Type) where
  mass : α
  gravity : Vec3 α
  d : Vec6 α
  D : Fin 6 → Fin 3 → α
  generatorsPerContact : ℕ
  algorithm : Algorithm
  solver_type : SolverLP
  G_cols : ℕ
  G_centr : ℕ → Vec6 α
  b0_to_emax_coefficient : α
  H_rows : ℕ
  H : ℕ → ℕ → α
  h : ℕ → α
  HD : ℕ → Fin 3 → α
  Hd : ℕ → α

/-- Embedding of Fin 3 into the first (force) half of Fin 6. -/
def finTop (i : Fin 3) : Fin 6 := ⟨(i : ℕ), Nat.lt_trans i.isLt (by decide)⟩

/-- Embedding of Fin 3 into the second (moment) half of Fin 6. -/
def finBot (i : Fin 3) : Fin 6 := ⟨(i : ℕ) + 3, Nat.add_lt_add_right i.isLt 3⟩

/-- The `StaticEquilibrium` constructor (lines 20-49 of
`src/static_equilibrium.cpp`).  The `name` and `useWarmStart` arguments only
feed the external solver and logger and are not modelled.  `alg0` and `b0c0`
stand for the values of `m_algorithm` and `m_b0_to_emax_coefficient`, which the
C++ constructor leaves uninitialized; `m_G_centr`, `m_H`, `m_h` default to
empty (0 columns / 0 rows). -/
def construct (mass : α) (generatorsPerContact : ℕ) (solver_type : SolverLP)
    (alg0 : Algorithm) (b0c0 : α) : StaticEquilibrium α :=
  let gravity : Vec3 α := ![0, 0, -(981 / 100)]
  { mass := mass
    gravity := gravity
    d := fun i => if hlt : (i : ℕ) < 3 then mass * gravity ⟨(i : ℕ), hlt⟩ else 0
    D := fun i j =>
      if hlt : (i : ℕ) < 3 then 0
      else crossMatrix (fun k => -(mass * gravity k)) ⟨(i : ℕ) - 3, by omega⟩ j
    generatorsPerContact := if generatorsPerContact < 3 then 3 else generatorsPerContact
    algorithm := alg0
    solver_type := solver_type
    G_cols := 0
    G_centr := fun _ _ => 0
    b0_to_emax_coefficient := b0c0
    H_rows := 0
    H := fun _ _ => 0
    h := fun _ => 0
    HD := fun _ _ => 0
    Hd := fun _ => 0 }

/-- Tangent direction `T1` of a contact normal (lines 90-92): cross with the
global Y axis, falling back to the X axis when that is nearly degenerate. -/
def tangentT1 (ops : ScalarOps α) (n : Vec3 α) : Vec3 α :=
  let T1 := cross3 n unitY
  if norm3 ops T1 < 1 / 100000 then cross3 n unitX else T1

/-- Tangent direction `T2` (line 93): the normal crossed with the (not yet
normalized) `T1`. -/
def tangentT2 (ops : ScalarOps α) (n : Vec3 α) : Vec3 α :=
  cross3 n (tangentT1 ops n)

/-- One friction-cone generator direction (lines 104-107): sweep the friction
disc by angle `theta` using the normalized tangents, add the normal, and
normalize. -/
def generatorDir (ops : ScalarOps α) (n : Vec3 α) (mu theta : α) : Vec3 α :=
  let T1 := normalize3 ops (tangentT1 ops n)
  let T2 := normalize3 ops (tangentT2 ops n)
  normalize3 ops (fun i => mu * ops.sin theta * T1 i + mu * ops.cos theta * T2 i + n i)

/-- Generator `j` of contact `i`: the angle of the `j`-th loop iteration is
`j * (2π/cg)`, the exact-arithmetic value of the accumulated
`theta += delta_theta` of the source loop. -/
def contactGenerator (ops : ScalarOps α) (contactNormals : List (Vec3 α))
    (mu : α) (cg i j : ℕ) : Vec3 α :=
  generatorDir ops (contactNormals.getD i zero3) mu ((j : α) * (2 * ops.pi / (cg : α)))

/-- The matrix `A` mapping a 3d contact force to a 6d gravito-inertial wrench
(lines 75-76 and 98): top rows `-I₃`, bottom rows `crossMatrix(-p)` for the
contact point `p`. -/
def Amat (p : Vec3 α) : Fin 6 → Fin 3 → α := fun r c =>
  if hlt : (r : ℕ) < 3 then (if (⟨(r : ℕ), hlt⟩ : Fin 3) = c then -1 else 0)
  else crossMatrix (fun k => -(p k)) ⟨(r : ℕ) - 3, by omega⟩ c

/-- Matrix-vector product of the 6×3 map `A` with a force direction. -/
def mulA (M : Fin 6 → Fin 3 → α) (f : Vec3 α) : Vec6 α :=
  fun r => ∑ c : Fin 3, M r c * f c

/-- Column `k` of `m_G_centr` on the success path (line 113): contact
`i = k / cg`, generator `j = k % cg`, lifted by that contact's map `A`. -/
def wrenchColumn (ops : ScalarOps α) (contactPoints contactNormals : List (Vec3 α))
    (mu : α) (cg : ℕ) (k : ℕ) : Vec6 α :=
  mulA (Amat (contactPoints.getD (k / cg) zero3))
    (contactGenerator ops contactNormals mu cg (k / cg) (k % cg))

/-- The per-contact validation of lines 84-88: `true` when the `i`-th normal's
norm differs from 1 by more than `1e-6`, which makes `setNewContacts` fail. -/
def badNormal (ops : ScalarOps α) (contactNormals : List (Vec3 α)) (i : ℕ) : Bool :=
  decide (1 / 1000000 < |norm3 ops (contactNormals.getD i zero3) - 1|)

/-- Transcription of `cone_span_eigen_to_cdd` from `src/util.cpp` applied to
`m_G_centr.transpose()` (one row per generator): column 0 is the homogeneous 0,
columns 1..6 hold the generator's wrench entries. -/
def cone_span_eigen_to_cdd (G : ℕ → Vec6 α) (m : ℕ) : DDMat α :=
  { rows := m
    cols := 7
    mat := fun i j => if hj : 1 ≤ j ∧ j < 7 then G i ⟨j - 1, by omega⟩ else 0 }

/-- The adapter part of `computePolytopeProjection` (lines 453-475) after the
cdd delegate returned the inequality matrix `b_A`.  Transcribed exactly,
including two quirks of the source: the appended-row loop indexes `m_h`/`m_H`
with the 1-based cdd row numbers of `eq_rows` used directly as 0-based Eigen
indices, and `m_H(idx)` on a matrix is Eigen scalar linear (column-major)
coefficient access, so each loop step writes a single coefficient. -/
def polytopeFromCdd (junkH : ℕ → ℕ → α) (junkh : ℕ → α) (bA : CddMatrix α) : HRep α :=
  let eq_rows := (List.range' 1 bA.linsetSize).filter (fun e => bA.linset e)
  let rowsize := bA.rowsize
  let numRows := rowsize + eq_rows.length
  let H0 : ℕ → ℕ → α := fun i j =>
    if i < rowsize ∧ j < bA.colsize - 1 then -(bA.mat i (j + 1)) else junkH i j
  let h0 : ℕ → α := fun i => if i < rowsize then bA.mat i 0 else junkh i
  let step : ((ℕ → ℕ → α) × (ℕ → α)) → (ℕ × ℕ) → ((ℕ → ℕ → α) × (ℕ → α)) :=
    fun Hh ie =>
      let i := ie.1
      let e := ie.2
      let h1 : ℕ → α := fun idx => if idx = rowsize + i then -(Hh.2 e) else Hh.2 idx
      let tr := (rowsize + i) % numRows
      let tc := (rowsize + i) / numRows
      let sr := e % numRows
      let sc := e / numRows
      let H1 : ℕ → ℕ → α := fun r cc =>
        if r = tr ∧ cc = tc then -(Hh.1 sr sc) else Hh.1 r cc
      (H1, h1)
  let Hh := eq_rows.enum.foldl step (H0, h0)
  { H := Hh.1, h := Hh.2, rows := numRows }

/-- Transcription of `StaticEquilibrium::computePolytopeProjection` (lines 434-479): feed the
generator matrix to the cdd delegate in homogeneous form; `none` is the
`dd_NoError` failure return. -/
def computePolytopeProjection (cdd : CddOracle α) (junkH : ℕ → ℕ → α)
    (junkh : ℕ → α) (G : ℕ → Vec6 α) (m : ℕ) : Option (HRep α) :=
  (cdd (cone_span_eigen_to_cdd G m)).map (polytopeFromCdd junkH junkh)

/-- Transcription of `StaticEquilibrium::setNewContacts` (lines 51-135), with the scalar, cdd and
uninitialized-memory oracles made explicit.  Returns the C++ `bool` and the
updated object state.  Mirrors the source order: unimplemented-algorithm
checks, `m_algorithm = alg`, the `m_G_centr` resize, the per-contact
validation-and-build loop (a failed validation aborts with the earlier
contacts' blocks written and the rest uninitialized), the `b0`-to-`e_max`
coefficient from the last contact's generators, and the PP-only projection with
the `m_HD`, `m_Hd` caches. -/
def setNewContacts (ops : ScalarOps α) (cdd : CddOracle α) (junk : UninitMem α)
    (s : StaticEquilibrium α) (contactPoints contactNormals : List (Vec3 α))
    (frictionCoefficient : α) (alg : Algorithm) : Bool × StaticEquilibrium α :=
  if alg = Algorithm.IP then (false, s)
  else if alg = Algorithm.DIP then (false, s)
  else
    let c := contactPoints.length
    let cg := s.generatorsPerContact
    match (List.range c).find? (badNormal ops contactNormals) with
    | some i0 =>
        (false,
          { s with
            algorithm := alg
            G_cols := c * cg
            G_centr := fun k =>
              if k < cg * i0
              then wrenchColumn ops contactPoints contactNormals frictionCoefficient cg k
              else junk.Gcol k })
    | none =>
        let f0 : Vec3 α := fun r =>
          ∑ j ∈ Finset.range cg,
            contactGenerator ops contactNormals frictionCoefficient cg (c - 1) j r
        let bcoef :=
          norm3 ops (cross3 f0 (contactGenerator ops contactNormals frictionCoefficient cg (c - 1) 0))
        let s1 :=
          { s with
            algorithm := alg
            G_cols := c * cg
            G_centr := wrenchColumn ops contactPoints contactNormals frictionCoefficient cg
            b0_to_emax_coefficient := bcoef }
        if alg = Algorithm.PP then
          match computePolytopeProjection cdd junk.Hent junk.hent s1.G_centr (c * cg) with
          | none => (false, s1)
          | some P =>
              (true,
                { s1 with
                  H := P.H
                  h := P.h
                  H_rows := P.rows
                  HD := fun i j => ∑ k : Fin 6, P.H i (k : ℕ) * s1.D k j
                  Hd := fun i => ∑ k : Fin 6, P.H i (k : ℕ) * s1.d k })
        else (true, s1)

/-- Transcription of `StaticEquilibrium::convert_b0_to_emax` (lines 481-484). -/
def convert_b0_to_emax (s : StaticEquilibrium α) (b0 : α) : α :=
  b0 * s.b0_to_emax_coefficient

/-- Transcription of `StaticEquilibrium::convert_emax_to_b0` (lines 486-489). -/
def convert_emax_to_b0 (s : StaticEquilibrium α) (emax : α) : α :=
  emax / s.b0_to_emax_coefficient

/-- The gravity wrench the CoM must balance: `m_D * com + m_d`. -/
def wrenchAtCom (s : StaticEquilibrium α) (com : Vec3 α) : Vec6 α :=
  fun i => (∑ j : Fin 3, s.D i j * com j) + s.d i

/-- The LP of the `STATIC_EQUILIBRIUM_ALGORITHM_LP` branch of
`computeEquilibriumRobustness` (lines 158-171). -/
def robustnessLPData (s : StaticEquilibrium α) (com : Vec3 α) : LPData α :=
  let m := s.G_cols
  { nVars := m + 1
    mCons := 6 + m
    c := fun k => if k = m then -1 else 0
    lb := fun _ => -(100000 : α)
    ub := fun _ => (10 : α) ^ 10
    A := fun i j =>
      if hi : i < 6 then (if j < m then s.G_centr j ⟨i, by omega⟩ else 0)
      else if j < m then (if j = i - 6 then 1 else 0)
      else if j = m then -1 else 0
    Alb := fun i => if hi : i < 6 then wrenchAtCom s com ⟨i, hi⟩ else 0
    Aub := fun i => if hi : i < 6 then wrenchAtCom s com ⟨i, hi⟩ else (10 : α) ^ 100 }

/-- The LP of the `STATIC_EQUILIBRIUM_ALGORITHM_LP2` branch of
`computeEquilibriumRobustness` (lines 197-207). -/
def robustnessLP2Data (s : StaticEquilibrium α) (com : Vec3 α) : LPData α :=
  let m := s.G_cols
  { nVars := m + 1
    mCons := 6
    c := fun k => if k = m then -1 else 0
    lb := fun k => if k = m then -((10 : α) ^ 10) else 0
    ub := fun _ => (10 : α) ^ 10
    A := fun i j =>
      if hi : i < 6 then
        (if j < m then s.G_centr j ⟨i, hi⟩
         else if j = m then ∑ k ∈ Finset.range m, s.G_centr k ⟨i, hi⟩ else 0)
      else 0
    Alb := fun i => if hi : i < 6 then wrenchAtCom s com ⟨i, hi⟩ else 0
    Aub := fun i => if hi : i < 6 then wrenchAtCom s com ⟨i, hi⟩ else 0 }

/-- The dual LP of the `STATIC_EQUILIBRIUM_ALGORITHM_DLP` branch of
`computeEquilibriumRobustness` (lines 233-243). -/
def robustnessDLPData (s : StaticEquilibrium α) (com : Vec3 α) : LPData α :=
  let m := s.G_cols
  { nVars := 6
    mCons := m + 1
    c := fun i => if hi : i < 6 then wrenchAtCom s com ⟨i, hi⟩ else 0
    lb := fun _ => -((10 : α) ^ 100)
    ub := fun _ => (10 : α) ^ 100
    A := fun i j =>
      if hj : j < 6 then
        (if i < m then s.G_centr i ⟨j, hj⟩
         else if i = m then ∑ k ∈ Finset.range m, s.G_centr k ⟨j, hj⟩ else 0)
      else 0
    Alb := fun i => if i = m then 1 else 0
    Aub := fun i => if i = m then 1 else (10 : α) ^ 100 }

/-- Transcription of `StaticEquilibrium::computeEquilibriumRobustness` (lines 138-264).  The
out-parameter `robustness` becomes the second component, `none` when the source
leaves it unwritten.  The DLP branch swaps INFEASIBLE and UNBOUNDED before
returning (lines 253-257). -/
def computeEquilibriumRobustness (solver : LPSolver α) (s : StaticEquilibrium α)
    (com : Vec3 α) : LPStatus × Option α :=
  if s.G_cols = 0 then (LPStatus.INFEASIBLE, none)
  else
    match s.algorithm with
    | Algorithm.LP =>
        let r := solver (robustnessLPData s com)
        if r.status = LPStatus.OPTIMAL
        then (r.status, some (convert_b0_to_emax s (-1 * r.obj)))
        else (r.status, none)
    | Algorithm.LP2 =>
        let r := solver (robustnessLP2Data s com)
        if r.status = LPStatus.OPTIMAL
        then (r.status, some (convert_b0_to_emax s (-1 * r.obj)))
        else (r.status, none)
    | Algorithm.DLP =>
        let r := solver (robustnessDLPData s com)
        if r.status = LPStatus.OPTIMAL
        then (r.status, some (convert_b0_to_emax s r.obj))
        else if r.status = LPStatus.INFEASIBLE then (LPStatus.UNBOUNDED, none)
        else if r.status = LPStatus.UNBOUNDED then (LPStatus.INFEASIBLE, none)
        else (r.status, none)
    | _ => (LPStatus.ERROR, none)

/-- Transcription of `StaticEquilibrium::checkRobustEquilibrium` (lines 266-294).  The
out-parameter `equilibrium` becomes the second component, `none` when the
source leaves it unwritten. -/
def checkRobustEquilibrium (s : StaticEquilibrium α) (com : Vec3 α) (e_max : α) :
    LPStatus × Option Bool :=
  if s.G_cols = 0 then (LPStatus.OPTIMAL, some false)
  else if e_max ≠ 0 then (LPStatus.ERROR, none)
  else if s.algorithm ≠ Algorithm.PP then (LPStatus.ERROR, none)
  else if ∃ i ∈ Finset.range s.H_rows, 0 < (∑ j : Fin 3, s.HD i j * com j) + s.Hd i
  then (LPStatus.OPTIMAL, some false)
  else (LPStatus.OPTIMAL, some true)

/-- The LP of the `STATIC_EQUILIBRIUM_ALGORITHM_LP` branch of
`findExtremumOverLine` (lines 318-328). -/
def extremumLPData (s : StaticEquilibrium α) (a a0 : Vec3 α) (b0 : α) : LPData α :=
  let m := s.G_cols
  { nVars := m + 1
    mCons := 6
    c := fun k => if k = m then -1 else 0
    lb := fun k => if k = m then -(100000 : α) else 0
    ub := fun _ => (10 : α) ^ 10
    A := fun i j =>
      if hi : i < 6 then
        (if j < m then s.G_centr j ⟨i, hi⟩
         else if j = m then -(∑ jj : Fin 3, s.D ⟨i, hi⟩ jj * a jj) else 0)
      else 0
    Alb := fun i =>
      if hi : i < 6 then
        wrenchAtCom s a0 ⟨i, hi⟩ - (∑ k ∈ Finset.range m, s.G_centr k ⟨i, hi⟩) * b0
      else 0
    Aub := fun i =>
      if hi : i < 6 then
        wrenchAtCom s a0 ⟨i, hi⟩ - (∑ k ∈ Finset.range m, s.G_centr k ⟨i, hi⟩) * b0
      else 0 }

/-- The dual LP of the `STATIC_EQUILIBRIUM_ALGORITHM_DLP` branch of
`findExtremumOverLine` (lines 367-377). -/
def extremumDLPData (s : StaticEquilibrium α) (a a0 : Vec3 α) (b0 : α) : LPData α :=
  let m := s.G_cols
  { nVars := 6
    mCons := m + 1
    c := fun i =>
      if hi : i < 6 then
        wrenchAtCom s a0 ⟨i, hi⟩ - (∑ k ∈ Finset.range m, s.G_centr k ⟨i, hi⟩) * b0
      else 0
    lb := fun _ => -((10 : α) ^ 10)
    ub := fun _ => (10 : α) ^ 10
    A := fun i j =>
      if hj : j < 6 then
        (if i < m then s.G_centr i ⟨j, hj⟩
         else if i = m then ∑ jj : Fin 3, s.D ⟨j, hj⟩ jj * a jj else 0)
      else 0
    Alb := fun i => if i = m then -1 else 0
    Aub := fun i => if i = m then -1 else (10 : α) ^ 10 }

/-- Transcription of `StaticEquilibrium::findExtremumOverLine` (lines 296-424).  The
out-parameter `com` becomes the second component (`none` when the source leaves
it unwritten; the non-optimal branches of the LP and DLP cases write `a0`).
The DLP branch applies the qpOASES large-negative-objective heuristic (lines
395-403) and then the INFEASIBLE/UNBOUNDED swap (lines 413-417). -/
def findExtremumOverLine (solver : LPSolver α) (s : StaticEquilibrium α)
    (a a0 : Vec3 α) (e_max : α) : LPStatus × Option (Vec3 α) :=
  if s.G_cols = 0 then (LPStatus.INFEASIBLE, none)
  else
    let b0 := convert_emax_to_b0 s e_max
    match s.algorithm with
    | Algorithm.LP =>
        let r := solver (extremumLPData s a a0 b0)
        if r.status = LPStatus.OPTIMAL
        then (r.status, some (fun i => a0 i + a i * r.sol s.G_cols))
        else (r.status, some a0)
    | Algorithm.DLP =>
        let r := solver (extremumDLPData s a a0 b0)
        if r.status = LPStatus.OPTIMAL then
          let p := r.obj
          if s.solver_type = SolverLP.QPOASES ∧ p < -((10 : α) ^ 7)
          then (LPStatus.UNBOUNDED, some (fun i => a0 i + a i * p))
          else (r.status, some (fun i => a0 i + a i * p))
        else if r.status = LPStatus.INFEASIBLE then (LPStatus.UNBOUNDED, some a0)
        else if r.status = LPStatus.UNBOUNDED then (LPStatus.INFEASIBLE, some a0)
        else (r.status, some a0)
    | _ => (LPStatus.ERROR, none)

/-- Transcription of `StaticEquilibrium::findExtremumInDirection` (lines 426-432): INFEASIBLE on
an empty generator matrix, otherwise the not-implemented ERROR.  The `com`
out-parameter is never written and the `direction` and `e_max` arguments are
never read. -/
def findExtremumInDirection (s : StaticEquilibrium α) (direction : Vec3 α)
    (e_max : α) : LPStatus :=
  if s.G_cols = 0 then LPStatus.INFEASIBLE else LPStatus.ERROR

/-! Concrete material over `ℚ` used to exercise the embedding. -/

/-- Concrete scalar oracle over `ℚ` (any values are admissible for the opaque
operations; `sqrt` is the identity so that unit vectors keep norm 1). -/
def opsQ : ScalarOps ℚ := ⟨0, fun _ => 0, fun _ => 1, id⟩

/-- Concrete uninitialized-memory model: `99` marks entries the source never
writes. -/
def junkQ : UninitMem ℚ := ⟨fun _ _ => 0, fun _ _ => 99, fun _ => 99⟩

/-- A cdd delegate that always fails. -/
def cddNone : CddOracle ℚ := fun _ => none

/-- A solver oracle returning a fixed status and objective value. -/
def mkSolver (st : LPStatus) (obj : ℚ) : LPSolver ℚ :=
  fun _ => ⟨st, fun _ => 0, obj⟩

/-- A freshly constructed engine: mass 1, 4 generators per contact, qpOASES. -/
def engBase : StaticEquilibrium ℚ :=
  construct 1 4 SolverLP.QPOASES Algorithm.LP 0

/-- An engine configured for the dual-LP algorithm with a nonempty generator
matrix. -/
def engDLP : StaticEquilibrium ℚ :=
  { engBase with
    algorithm := Algorithm.DLP
    G_cols := 3 }

/-- An engine configured for the polytope-projection algorithm, before its
`m_HD`, `m_Hd` caches are filled. -/
def engPPbase : StaticEquilibrium ℚ :=
  { engBase with
    algorithm := Algorithm.PP
    G_cols := 3
    H_rows := 1
    H := fun _ _ => 1
    h := fun _ => 0 }

/-- The polytope-projection engine with the `m_HD = m_H*m_D` and
`m_Hd = m_H*m_d` caches filled exactly as `setNewContacts` fills them. -/
def engPP : StaticEquilibrium ℚ :=
  { engPPbase with
    HD := fun i j => ∑ k : Fin 6, engPPbase.H i (k : ℕ) * engPPbase.D k j
    Hd := fun i => ∑ k : Fin 6, engPPbase.H i (k : ℕ) * engPPbase.d k }

/-- An engine whose `b0`-to-`e_max` coefficient is the nonzero value 2. -/
def engCoef2 : StaticEquilibrium ℚ :=
  { engBase with b0_to_emax_coefficient := 2 }

/-- One contact point at the origin. -/
def ptsW : List (Vec3 ℚ) := [![0, 0, 0]]

/-- One unit contact normal along `z`. -/
def nrmsW : List (Vec3 ℚ) := [![0, 0, 1]]

/-- One contact normal of norm 1/4 under `opsQ` (its squared norm), far outside
the `1e-6` tolerance. -/
def nrmsBad : List (Vec3 ℚ) := [![0, 0, 1/2]]

/-! Helper lemmas about the success path of `setNewContacts`. -/

/-- On a successful `setNewContacts` call the stored generator matrix is
`wrenchColumn` and the stored coefficient is the one computed from the last
contact's generators. -/
theorem snc_success_state (ops : ScalarOps α) (cdd : CddOracle α) (junk : UninitMem α)
    (s : StaticEquilibrium α) (pts nrms : List (Vec3 α)) (mu : α) (alg : Algorithm)
    (hsucc : (setNewContacts ops cdd junk s pts nrms mu alg).1 = true) :
    (setNewContacts ops cdd junk s pts nrms mu alg).2.G_centr
        = wrenchColumn ops pts nrms mu s.generatorsPerContact
    ∧ (setNewContacts ops cdd junk s pts nrms mu alg).2.b0_to_emax_coefficient
        = norm3 ops (cross3
            (fun r => ∑ j ∈ Finset.range s.generatorsPerContact,
              contactGenerator ops nrms mu s.generatorsPerContact (pts.length - 1) j r)
            (contactGenerator ops nrms mu s.generatorsPerContact (pts.length - 1) 0)) := by
  cases alg with
  | IP => simp [setNewContacts] at hsucc
  | DIP => simp [setNewContacts] at hsucc
  | LP =>
      cases hfind : (List.range pts.length).find? (badNormal ops nrms) with
      | some i0 => simp [setNewContacts, hfind] at hsucc
      | none => simp [setNewContacts, hfind]
  | LP2 =>
      cases hfind : (List.range pts.length).find? (badNormal ops nrms) with
      | some i0 => simp [setNewContacts, hfind] at hsucc
      | none => simp [setNewContacts, hfind]
  | DLP =>
      cases hfind : (List.range pts.length).find? (badNormal ops nrms) with
      | some i0 => simp [setNewContacts, hfind] at hsucc
      | none => simp [setNewContacts, hfind]
  | PP =>
      cases hfind : (List.range pts.length).find? (badNormal ops nrms) with
      | some i0 => simp [setNewContacts, hfind] at hsucc
      | none =>
          cases hP : computePolytopeProjection cdd junk.Hent junk.hent
              (wrenchColumn ops pts nrms mu s.generatorsPerContact)
              (pts.length * s.generatorsPerContact) with
          | none => simp [setNewContacts, hfind, hP] at hsucc
          | some P => simp [setNewContacts, hfind, hP]

/-- C1: on every valid configuration accepted by `setNewContacts` (`c` contacts
with tolerated unit normals, friction coefficient `mu`, `g` generators per
contact), column `g*i + j` of the stored generator matrix is
`A_i *ᵥ normalize(mu·sin(θ_j)·T1 + mu·cos(θ_j)·T2 + normal_i)` with
`θ_j = j·2π/g`, where `A_i` has `-I₃` on top and `crossMatrix(-point_i)` at the
bottom (the maps `Amat`, `generatorDir`). -/
theorem c1_generator_columns (ops : ScalarOps α) (cdd : CddOracle α)
    (junk : UninitMem α) (s : StaticEquilibrium α) (pts nrms : List (Vec3 α))
    (mu : α) (alg : Algorithm) (hlen : nrms.length = pts.length)
    (hsucc : (setNewContacts ops cdd junk s pts nrms mu alg).1 = true)
    (i j : ℕ) (hi : i < pts.length) (hj : j < s.generatorsPerContact) :
    (setNewContacts ops cdd junk s pts nrms mu alg).2.G_centr
        (s.generatorsPerContact * i + j)
      = mulA (Amat (pts.getD i zero3))
          (generatorDir ops (nrms.getD i zero3) mu
            ((j : α) * (2 * ops.pi / (s.generatorsPerContact : α)))) := by
  have hG := (snc_success_state ops cdd junk s pts nrms mu alg hsucc).1
  rw [hG]
  have hcg : 0 < s.generatorsPerContact := Nat.lt_of_le_of_lt (Nat.zero_le j) hj
  unfold wrenchColumn contactGenerator
  rw [Nat.mul_add_div hcg, Nat.div_eq_of_lt hj, Nat.add_zero, Nat.mul_add_mod,
    Nat.mod_eq_of_lt hj]

/-- The single flat unit-normal contact passes the norm-1 validation. -/
theorem badNormal_nrmsW_zero : badNormal opsQ nrmsW 0 = false := by
  norm_num [badNormal, nrmsW, norm3, dot3, opsQ, List.getD]

/-- The validation loop over the single flat contact finds no bad normal. -/
theorem findW_none : (List.range ptsW.length).find? (badNormal opsQ nrmsW) = none := by
  rw [List.find?_eq_none]
  intro x hx
  simp only [ptsW, List.length_cons, List.length_nil, List.mem_range] at hx
  have hx0 : x = 0 := by omega
  subst hx0
  simp [badNormal_nrmsW_zero]

/-- Fact: `setNewContacts` accepts the single flat contact under the LP algorithm. -/
theorem sncW_success :
    (setNewContacts opsQ cddNone junkQ engBase ptsW nrmsW 0 Algorithm.LP).1 = true := by
  simp [setNewContacts, findW_none]

/-- Witness for C1 at a single flat contact. -/
theorem c1_generator_columns_witness :
    nrmsW.length = ptsW.length
    ∧ (setNewContacts opsQ cddNone junkQ engBase ptsW nrmsW 0 Algorithm.LP).1 = true
    ∧ 0 < ptsW.length
    ∧ 0 < engBase.generatorsPerContact
    ∧ (setNewContacts opsQ cddNone junkQ engBase ptsW nrmsW 0 Algorithm.LP).2.G_centr
        (engBase.generatorsPerContact * 0 + 0)
      = mulA (Amat (ptsW.getD 0 zero3))
          (generatorDir opsQ (nrmsW.getD 0 zero3) 0
            ((0 : ℚ) * (2 * opsQ.pi / (engBase.generatorsPerContact : ℚ)))) :=
  ⟨rfl, sncW_success, by decide, by decide,
    c1_generator_columns opsQ cddNone junkQ engBase ptsW nrmsW 0 Algorithm.LP rfl
      sncW_success 0 0 (by decide) (by decide)⟩

/-- Fact: `setNewContacts` never writes the gravity-wrench constants `m_d`, `m_D`
(no assignment to them occurs on any path of lines 51-135). -/
theorem snc_preserves_dD (ops : ScalarOps α) (cdd : CddOracle α) (junk : UninitMem α)
    (s : StaticEquilibrium α) (pts nrms : List (Vec3 α)) (mu : α) (alg : Algorithm) :
    (setNewContacts ops cdd junk s pts nrms mu alg).2.d = s.d
    ∧ (setNewContacts ops cdd junk s pts nrms mu alg).2.D = s.D := by
  cases alg with
  | IP => exact ⟨rfl, rfl⟩
  | DIP => exact ⟨rfl, rfl⟩
  | LP =>
      cases hfind : (List.range pts.length).find? (badNormal ops nrms) with
      | some i0 => simp [setNewContacts, hfind]
      | none => simp [setNewContacts, hfind]
  | LP2 =>
      cases hfind : (List.range pts.length).find? (badNormal ops nrms) with
      | some i0 => simp [setNewContacts, hfind]
      | none => simp [setNewContacts, hfind]
  | DLP =>
      cases hfind : (List.range pts.length).find? (badNormal ops nrms) with
      | some i0 => simp [setNewContacts, hfind]
      | none => simp [setNewContacts, hfind]
  | PP =>
      cases hfind : (List.range pts.length).find? (badNormal ops nrms) with
      | some i0 => simp [setNewContacts, hfind]
      | none =>
          cases hP : computePolytopeProjection cdd junk.Hent junk.hent
              (wrenchColumn ops pts nrms mu s.generatorsPerContact)
              (pts.length * s.generatorsPerContact) with
          | none => simp [setNewContacts, hfind, hP]
          | some P => simp [setNewContacts, hfind, hP]

/-- C2: after construction with any mass, the gravity vector is `(0,0,-9.81)`,
`m_d`'s top 3 entries are `mass·gravity` and its bottom 3 entries zero, `m_D`
is zero on its top 3 rows and its bottom 3×3 block is
`crossMatrix(-mass·gravity)`; `setNewContacts` (the only state-changing
operation) never mutates `m_d` or `m_D`. -/
theorem c2_gravity_wrench_constants (mass : α) (gpc : ℕ) (st : SolverLP)
    (alg0 : Algorithm) (b0c0 : α) :
    (construct mass gpc st alg0 b0c0).gravity 0 = 0
    ∧ (construct mass gpc st alg0 b0c0).gravity 1 = 0
    ∧ (construct mass gpc st alg0 b0c0).gravity 2 = -(981 / 100)
    ∧ (∀ i : Fin 3, (construct mass gpc st alg0 b0c0).d (finTop i)
        = mass * (construct mass gpc st alg0 b0c0).gravity i)
    ∧ (∀ i : Fin 3, (construct mass gpc st alg0 b0c0).d (finBot i) = 0)
    ∧ (∀ i j : Fin 3, (construct mass gpc st alg0 b0c0).D (finTop i) j = 0)
    ∧ (∀ i j : Fin 3, (construct mass gpc st alg0 b0c0).D (finBot i) j
        = crossMatrix (fun k => -(mass * (construct mass gpc st alg0 b0c0).gravity k)) i j)
    ∧ (∀ (ops : ScalarOps α) (cdd : CddOracle α) (junk : UninitMem α)
        (s : StaticEquilibrium α) (pts nrms : List (Vec3 α)) (mu : α) (alg : Algorithm),
        (setNewContacts ops cdd junk s pts nrms mu alg).2.d = s.d
        ∧ (setNewContacts ops cdd junk s pts nrms mu alg).2.D = s.D) := by
  refine ⟨rfl, rfl, rfl, ?_, ?_, ?_, ?_, ?_⟩
  · intro i; fin_cases i <;> rfl
  · intro i; fin_cases i <;> rfl
  · intro i j; fin_cases i <;> fin_cases j <;> rfl
  · intro i j; fin_cases i <;> fin_cases j <;> rfl
  · intro ops cdd junk s pts nrms mu alg
    exact snc_preserves_dD ops cdd junk s pts nrms mu alg

/-- C10: with a nonzero `b0`-to-`e_max` coefficient the two conversions are
mutual inverses in exact arithmetic; with a zero coefficient (e.g.
frictionless contacts) `convert_emax_to_b0` divides by zero. -/
theorem c10_conversion_inverses (s s0 : StaticEquilibrium α) (e b e0 : α)
    (hc : s.b0_to_emax_coefficient ≠ 0) (hz : s0.b0_to_emax_coefficient = 0) :
    convert_b0_to_emax s (convert_emax_to_b0 s e) = e
    ∧ convert_emax_to_b0 s (convert_b0_to_emax s b) = b
    ∧ convert_emax_to_b0 s0 e0 = e0 / 0 := by
  unfold convert_b0_to_emax convert_emax_to_b0
  exact ⟨div_mul_cancel₀ e hc, mul_div_cancel_right₀ b hc, by rw [hz]⟩

/-- Witness for C10: coefficient 2 on one engine, coefficient 0 on another. -/
theorem c10_conversion_inverses_witness :
    engCoef2.b0_to_emax_coefficient ≠ 0
    ∧ engBase.b0_to_emax_coefficient = 0
    ∧ convert_b0_to_emax engCoef2 (convert_emax_to_b0 engCoef2 3) = 3 := by
  have h2 : engCoef2.b0_to_emax_coefficient ≠ 0 := by
    simp [engCoef2]
  exact ⟨h2, rfl, (c10_conversion_inverses engCoef2 engBase 3 5 7 h2 rfl).1⟩

/-- C5: with zero contacts (empty generator matrix) every query answers
INFEASIBLE — or `equilibrium = false` for `checkRobustEquilibrium` — and the
answer is the same for every solver oracle, i.e. the solver is never
consulted. -/
theorem c5_empty_configuration (s : StaticEquilibrium α) (hempty : s.G_cols = 0) :
    (∀ (solver : LPSolver α) (com : Vec3 α),
        computeEquilibriumRobustness solver s com = (LPStatus.INFEASIBLE, none))
    ∧ (∀ (solver : LPSolver α) (a a0 : Vec3 α) (e_max : α),
        findExtremumOverLine solver s a a0 e_max = (LPStatus.INFEASIBLE, none))
    ∧ (∀ (dir : Vec3 α) (e_max : α),
        findExtremumInDirection s dir e_max = LPStatus.INFEASIBLE)
    ∧ (∀ (com : Vec3 α) (e_max : α),
        (checkRobustEquilibrium s com e_max).2 = some false) := by
  refine ⟨?_, ?_, ?_, ?_⟩ <;> intros <;>
    simp [computeEquilibriumRobustness, findExtremumOverLine,
      findExtremumInDirection, checkRobustEquilibrium, hempty]

/-- Witness for C5 on a freshly constructed (contact-free) engine. -/
theorem c5_empty_configuration_witness :
    engBase.G_cols = 0
    ∧ computeEquilibriumRobustness (mkSolver LPStatus.OPTIMAL 0) engBase zero3
        = (LPStatus.INFEASIBLE, none) :=
  ⟨rfl, (c5_empty_configuration engBase rfl).1 (mkSolver LPStatus.OPTIMAL 0) zero3⟩

/-- Counterexample to C3 as stated: on the dual-LP branch of
`findExtremumOverLine` with the qpOASES backend, a solver answer of OPTIMAL
with objective `-2·10^7` is *not* returned unchanged — the heuristic of lines
395-403 turns it into UNBOUNDED. -/
theorem c3_counterexample :
    ((mkSolver LPStatus.OPTIMAL (-20000000)) (extremumDLPData engDLP zero3 zero3
        (convert_emax_to_b0 engDLP 0))).status = LPStatus.OPTIMAL
    ∧ (findExtremumOverLine (mkSolver LPStatus.OPTIMAL (-20000000)) engDLP zero3 zero3 0).1
        = LPStatus.UNBOUNDED := by
  refine ⟨rfl, ?_⟩
  simp only [findExtremumOverLine, mkSolver, engDLP, engBase, construct]
  norm_num

/-- C3 (amended): for a nonempty dual-LP configuration, a non-optimal solver
status comes back with INFEASIBLE and UNBOUNDED swapped (ERROR unchanged) in
both `computeEquilibriumRobustness` and `findExtremumOverLine`;
`computeEquilibriumRobustness` returns OPTIMAL unchanged, and
`findExtremumOverLine` returns OPTIMAL unchanged except when the backend is
qpOASES and the objective is below `-1e7`. -/
theorem c3_dlp_status_mapping (solver : LPSolver α) (s : StaticEquilibrium α)
    (com a a0 : Vec3 α) (e_max : α)
    (hne : ¬s.G_cols = 0) (halg : s.algorithm = Algorithm.DLP) :
    ((solver (robustnessDLPData s com)).status = LPStatus.OPTIMAL →
        (computeEquilibriumRobustness solver s com).1 = LPStatus.OPTIMAL)
    ∧ ((solver (robustnessDLPData s com)).status = LPStatus.INFEASIBLE →
        (computeEquilibriumRobustness solver s com).1 = LPStatus.UNBOUNDED)
    ∧ ((solver (robustnessDLPData s com)).status = LPStatus.UNBOUNDED →
        (computeEquilibriumRobustness solver s com).1 = LPStatus.INFEASIBLE)
    ∧ ((solver (robustnessDLPData s com)).status = LPStatus.ERROR →
        (computeEquilibriumRobustness solver s com).1 = LPStatus.ERROR)
    ∧ ((solver (extremumDLPData s a a0 (convert_emax_to_b0 s e_max))).status
          = LPStatus.INFEASIBLE →
        (findExtremumOverLine solver s a a0 e_max).1 = LPStatus.UNBOUNDED)
    ∧ ((solver (extremumDLPData s a a0 (convert_emax_to_b0 s e_max))).status
          = LPStatus.UNBOUNDED →
        (findExtremumOverLine solver s a a0 e_max).1 = LPStatus.INFEASIBLE)
    ∧ ((solver (extremumDLPData s a a0 (convert_emax_to_b0 s e_max))).status
          = LPStatus.ERROR →
        (findExtremumOverLine solver s a a0 e_max).1 = LPStatus.ERROR)
    ∧ ((solver (extremumDLPData s a a0 (convert_emax_to_b0 s e_max))).status
          = LPStatus.OPTIMAL →
        ¬(s.solver_type = SolverLP.QPOASES
            ∧ (solver (extremumDLPData s a a0 (convert_emax_to_b0 s e_max))).obj
                < -((10 : α) ^ 7)) →
        (findExtremumOverLine solver s a a0 e_max).1 = LPStatus.OPTIMAL) := by
  unfold computeEquilibriumRobustness findExtremumOverLine
  rw [if_neg hne, if_neg hne, halg]
  refine ⟨?_, ?_, ?_, ?_, ?_, ?_, ?_, ?_⟩ <;> intro hst
  · simp [hst]
  · simp [hst]
  · simp [hst]
  · simp [hst]
  · simp [hst]
  · simp [hst]
  · simp [hst]
  · intro hnotq
    simp only [hst]
    simp only [reduceIte]
    rw [if_neg hnotq]

/-- Witness for C3 (amended) on the concrete dual-LP engine: a dual-infeasible
answer is reported as UNBOUNDED. -/
theorem c3_dlp_status_mapping_witness :
    ¬engDLP.G_cols = 0
    ∧ engDLP.algorithm = Algorithm.DLP
    ∧ (((mkSolver LPStatus.INFEASIBLE 0) (robustnessDLPData engDLP zero3)).status
          = LPStatus.INFEASIBLE →
        (computeEquilibriumRobustness (mkSolver LPStatus.INFEASIBLE 0) engDLP zero3).1
          = LPStatus.UNBOUNDED) :=
  ⟨by decide, rfl,
    (c3_dlp_status_mapping (mkSolver LPStatus.INFEASIBLE 0) engDLP zero3 zero3 zero3 0
        (by decide) rfl).2.1⟩

/-- C9: on the dual-LP branch of `findExtremumOverLine`, when the backend is
qpOASES (which cannot natively detect unboundedness) and the solver reports
OPTIMAL with an objective below `-1e7`, the returned status is UNBOUNDED. -/
theorem c9_qpoases_unbounded_heuristic (solver : LPSolver α) (s : StaticEquilibrium α)
    (a a0 : Vec3 α) (e_max : α) (hne : ¬s.G_cols = 0)
    (halg : s.algorithm = Algorithm.DLP) (hq : s.solver_type = SolverLP.QPOASES)
    (hst : (solver (extremumDLPData s a a0 (convert_emax_to_b0 s e_max))).status
        = LPStatus.OPTIMAL)
    (hobj : (solver (extremumDLPData s a a0 (convert_emax_to_b0 s e_max))).obj
        < -((10 : α) ^ 7)) :
    (findExtremumOverLine solver s a a0 e_max).1 = LPStatus.UNBOUNDED := by
  unfold findExtremumOverLine
  rw [if_neg hne, halg]
  simp [hst, hq, hobj]

/-- Witness for C9 on the concrete qpOASES dual-LP engine with objective
`-2·10^7`. -/
theorem c9_qpoases_unbounded_heuristic_witness :
    ¬engDLP.G_cols = 0
    ∧ engDLP.algorithm = Algorithm.DLP
    ∧ engDLP.solver_type = SolverLP.QPOASES
    ∧ ((mkSolver LPStatus.OPTIMAL (-20000000)) (extremumDLPData engDLP zero3 zero3
          (convert_emax_to_b0 engDLP 0))).obj < -((10 : ℚ) ^ 7)
    ∧ (findExtremumOverLine (mkSolver LPStatus.OPTIMAL (-20000000)) engDLP zero3 zero3 0).1
        = LPStatus.UNBOUNDED := by
  have hobj : ((mkSolver LPStatus.OPTIMAL (-20000000)) (extremumDLPData engDLP zero3 zero3
      (convert_emax_to_b0 engDLP 0))).obj < -((10 : ℚ) ^ 7) := by
    norm_num [mkSolver]
  exact ⟨by decide, rfl, rfl, hobj,
    c9_qpoases_unbounded_heuristic (mkSolver LPStatus.OPTIMAL (-20000000)) engDLP zero3 zero3 0
      (by decide) rfl rfl rfl hobj⟩

/-- C4: for a nonempty configuration, `checkRobustEquilibrium` with the
polytope-projection algorithm and `e_max = 0` answers OPTIMAL and reports
equilibrium exactly when every row of `H·D·com + H·d` is ≤ 0 (the hypotheses
say the `m_HD`, `m_Hd` caches hold `H·D` and `H·d`, as `setNewContacts` fills
them); a nonzero `e_max`, or any algorithm other than polytope projection,
yields ERROR instead of an answer. -/
theorem c4_check_robust_equilibrium (s : StaticEquilibrium α) (com : Vec3 α)
    (e_max : α) (hne : ¬s.G_cols = 0)
    (hHD : s.HD = fun i j => ∑ k : Fin 6, s.H i (k : ℕ) * s.D k j)
    (hHd : s.Hd = fun i => ∑ k : Fin 6, s.H i (k : ℕ) * s.d k) :
    (s.algorithm = Algorithm.PP →
        (checkRobustEquilibrium s com 0).1 = LPStatus.OPTIMAL
        ∧ ((checkRobustEquilibrium s com 0).2 = some true
            ↔ ∀ i < s.H_rows,
                (∑ j : Fin 3, (∑ k : Fin 6, s.H i (k : ℕ) * s.D k j) * com j)
                  + (∑ k : Fin 6, s.H i (k : ℕ) * s.d k) ≤ 0))
    ∧ (¬e_max = 0 → (checkRobustEquilibrium s com e_max).1 = LPStatus.ERROR)
    ∧ (¬s.algorithm = Algorithm.PP →
        (checkRobustEquilibrium s com e_max).1 = LPStatus.ERROR) := by
  have h00 : ¬((0 : α) ≠ 0) := not_not_intro rfl
  refine ⟨?_, ?_, ?_⟩
  · intro halg
    have hpp : ¬(s.algorithm ≠ Algorithm.PP) := not_not_intro halg
    constructor
    · unfold checkRobustEquilibrium
      rw [if_neg hne, if_neg h00, if_neg hpp]
      split <;> rfl
    · unfold checkRobustEquilibrium
      rw [if_neg hne, if_neg h00, if_neg hpp]
      split
      · next hex =>
          refine iff_of_false (by simp) ?_
          intro hall
          obtain ⟨i, hi, hpos⟩ := hex
          simp only [hHD, hHd] at hpos
          exact absurd (hall i (Finset.mem_range.mp hi)) (not_le.mpr hpos)
      · next hex =>
          refine iff_of_true rfl ?_
          intro i hi
          by_contra hc
          refine hex ⟨i, Finset.mem_range.mpr hi, ?_⟩
          simp only [hHD, hHd]
          exact lt_of_not_le hc
  · intro hz
    unfold checkRobustEquilibrium
    rw [if_neg hne, if_pos hz]
  · intro hnp
    unfold checkRobustEquilibrium
    rw [if_neg hne]
    by_cases hz : e_max ≠ 0
    · rw [if_pos hz]
    · rw [if_neg hz, if_pos hnp]

/-- Witness for C4 on the concrete polytope-projection engine. -/
theorem c4_check_robust_equilibrium_witness :
    ¬engPP.G_cols = 0
    ∧ engPP.HD = (fun i j => ∑ k : Fin 6, engPP.H i (k : ℕ) * engPP.D k j)
    ∧ engPP.Hd = (fun i => ∑ k : Fin 6, engPP.H i (k : ℕ) * engPP.d k)
    ∧ engPP.algorithm = Algorithm.PP
    ∧ (checkRobustEquilibrium engPP zero3 0).1 = LPStatus.OPTIMAL :=
  ⟨by decide, rfl, rfl, rfl,
    ((c4_check_robust_equilibrium engPP zero3 1 (by decide) rfl rfl).1 rfl).1⟩

/-- The bad normal of norm 1/4 (under `opsQ`) fails the norm-1 validation. -/
theorem badNormal_nrmsBad_zero : badNormal opsQ nrmsBad 0 = true := by
  norm_num [badNormal, nrmsBad, norm3, dot3, opsQ, List.getD]
  rw [abs_of_pos (by norm_num : (0 : ℚ) < 3 / 4)]
  norm_num

/-- The validation loop flags contact 0 of the bad-normal configuration. -/
theorem findBad_some :
    (List.range ptsW.length).find? (badNormal opsQ nrmsBad) = some 0 := by
  simp [ptsW, List.range_succ, List.find?_cons, badNormal_nrmsBad_zero]

/-- Counterexample to C6 as stated: a failing `setNewContacts` call does *not*
leave the engine unchanged — `m_algorithm = alg` (line 67) runs before the
normal validation, so the stored algorithm selector becomes the requested one
even though the call fails. -/
theorem c6_counterexample :
    (setNewContacts opsQ cddNone junkQ engBase ptsW nrmsBad 0 Algorithm.DLP).1 = false
    ∧ ¬(setNewContacts opsQ cddNone junkQ engBase ptsW nrmsBad 0 Algorithm.DLP).2.algorithm
        = engBase.algorithm := by
  constructor
  · simp [setNewContacts, findBad_some]
  · simp [setNewContacts, findBad_some, engBase, construct]

/-- C6 (amended): on a contact set whose first flagged normal violates the
norm-1 tolerance, `setNewContacts` returns failure, and the half-space cache
(`m_H`, `m_h`, `m_H_rows`, `m_HD`, `m_Hd`), the `b0`-to-`e_max` coefficient and
the gravity constants are unchanged; but the algorithm selector is overwritten
with the requested algorithm and the generator matrix is reallocated to
`c·g` columns with only the blocks of the contacts preceding the flagged one
written (the rest is whatever the Eigen resize exposed). -/
theorem c6_failed_validation_state (ops : ScalarOps α) (cdd : CddOracle α)
    (junk : UninitMem α) (s : StaticEquilibrium α) (pts nrms : List (Vec3 α))
    (mu : α) (alg : Algorithm) (i0 : ℕ)
    (hIP : ¬alg = Algorithm.IP) (hDIP : ¬alg = Algorithm.DIP)
    (hfind : (List.range pts.length).find? (badNormal ops nrms) = some i0) :
    (setNewContacts ops cdd junk s pts nrms mu alg).1 = false
    ∧ (setNewContacts ops cdd junk s pts nrms mu alg).2.H = s.H
    ∧ (setNewContacts ops cdd junk s pts nrms mu alg).2.h = s.h
    ∧ (setNewContacts ops cdd junk s pts nrms mu alg).2.H_rows = s.H_rows
    ∧ (setNewContacts ops cdd junk s pts nrms mu alg).2.HD = s.HD
    ∧ (setNewContacts ops cdd junk s pts nrms mu alg).2.Hd = s.Hd
    ∧ (setNewContacts ops cdd junk s pts nrms mu alg).2.b0_to_emax_coefficient
        = s.b0_to_emax_coefficient
    ∧ (setNewContacts ops cdd junk s pts nrms mu alg).2.d = s.d
    ∧ (setNewContacts ops cdd junk s pts nrms mu alg).2.D = s.D
    ∧ (setNewContacts ops cdd junk s pts nrms mu alg).2.algorithm = alg
    ∧ (setNewContacts ops cdd junk s pts nrms mu alg).2.G_cols
        = pts.length * s.generatorsPerContact
    ∧ (setNewContacts ops cdd junk s pts nrms mu alg).2.G_centr
        = fun k => if k < s.generatorsPerContact * i0
            then wrenchColumn ops pts nrms mu s.generatorsPerContact k
            else junk.Gcol k := by
  cases alg with
  | IP => exact absurd rfl hIP
  | DIP => exact absurd rfl hDIP
  | LP => simp [setNewContacts, hfind]
  | LP2 => simp [setNewContacts, hfind]
  | DLP => simp [setNewContacts, hfind]
  | PP => simp [setNewContacts, hfind]

/-- Witness for C6 (amended) at the concrete bad-normal call. -/
theorem c6_failed_validation_state_witness :
    ¬(Algorithm.DLP = Algorithm.IP)
    ∧ ¬(Algorithm.DLP = Algorithm.DIP)
    ∧ (List.range ptsW.length).find? (badNormal opsQ nrmsBad) = some 0
    ∧ (setNewContacts opsQ cddNone junkQ engBase ptsW nrmsBad 0 Algorithm.DLP).1 = false
    ∧ (setNewContacts opsQ cddNone junkQ engBase ptsW nrmsBad 0 Algorithm.DLP).2.algorithm
        = Algorithm.DLP :=
  ⟨by decide, by decide, findBad_some,
    (c6_failed_validation_state opsQ cddNone junkQ engBase ptsW nrmsBad 0 Algorithm.DLP 0
        (by decide) (by decide) findBad_some).1,
    (c6_failed_validation_state opsQ cddNone junkQ engBase ptsW nrmsBad 0 Algorithm.DLP 0
        (by decide) (by decide) findBad_some).2.2.2.2.2.2.2.2.2.1⟩

/-- A cdd answer with 2 inequality rows whose 1-based row 1 (stored row 0) is
flagged as an equality: stored row 0 starts with coefficient `-1`, stored row 1
with `-2`, and one extra row is appended for the equality. -/
def bA7 : CddMatrix ℚ :=
  { rowsize := 2
    colsize := 7
    linsetSize := 2
    linset := fun e => e == 1
    mat := fun i j => if i = 0 ∧ j = 1 then 1 else if i = 1 ∧ j = 1 then 2 else 0 }

/-- A cdd delegate returning `bA7`. -/
def cdd7 : CddOracle ℚ := fun _ => some bA7

/-- Result of `computePolytopeProjection` evaluated on the delegate answer `bA7`, with 99
marking the never-written entries. -/
def out7 : Option (HRep ℚ) :=
  computePolytopeProjection cdd7 (fun _ _ => 99) (fun _ => 99) (fun _ _ => 0) 0

/-- C7 evaluated at the failing input `bA7`: the stored rows are the negated
delegate rows (`-1`, `-2` in column 0), but the appended equality row gets
`-(H 1 0) = 2` in column 0 — the negation of the row *after* the flagged
stored row 0 — and its remaining columns are never written (they keep the
uninitialized marker 99); it is not the negation of the flagged row. -/
theorem c7_equality_append_bug :
    (out7.map fun P => P.rows) = some 3
    ∧ (out7.map fun P => P.H 0 0) = some (-1)
    ∧ (out7.map fun P => P.H 1 0) = some (-2)
    ∧ (out7.map fun P => P.H 2 0) = some 2
    ∧ ¬(out7.map fun P => P.H 2 0) = (out7.map fun P => -(P.H 0 0))
    ∧ (out7.map fun P => P.H 2 1) = some 99 := by
  norm_num [out7, computePolytopeProjection, cdd7, bA7, polytopeFromCdd,
    cone_span_eigen_to_cdd, List.range', List.enum]

/-- C8: on every successful `setNewContacts` call with at least one contact,
the stored `b0`-to-`e_max` coefficient is `‖f0 × g₀‖` where `g₀` is generator 0
of the last contact processed (index `c-1`) and `f0` the sum of that contact's
`g` generator directions; `setNewContacts` takes no CoM input, so the value is
fixed once per configuration. -/
theorem c8_b0_coefficient (ops : ScalarOps α) (cdd : CddOracle α) (junk : UninitMem α)
    (s : StaticEquilibrium α) (pts nrms : List (Vec3 α)) (mu : α) (alg : Algorithm)
    (hsucc : (setNewContacts ops cdd junk s pts nrms mu alg).1 = true)
    (hne : ¬pts = []) :
    (setNewContacts ops cdd junk s pts nrms mu alg).2.b0_to_emax_coefficient
      = norm3 ops (cross3
          (fun r => ∑ j ∈ Finset.range s.generatorsPerContact,
            contactGenerator ops nrms mu s.generatorsPerContact (pts.length - 1) j r)
          (contactGenerator ops nrms mu s.generatorsPerContact (pts.length - 1) 0)) :=
  (snc_success_state ops cdd junk s pts nrms mu alg hsucc).2

/-- Witness for C8 at the single flat contact. -/
theorem c8_b0_coefficient_witness :
    (setNewContacts opsQ cddNone junkQ engBase ptsW nrmsW 0 Algorithm.LP).1 = true
    ∧ ¬ptsW = []
    ∧ (setNewContacts opsQ cddNone junkQ engBase ptsW nrmsW 0 Algorithm.LP).2.b0_to_emax_coefficient
        = norm3 opsQ (cross3
            (fun r => ∑ j ∈ Finset.range engBase.generatorsPerContact,
              contactGenerator opsQ nrmsW 0 engBase.generatorsPerContact (ptsW.length - 1) j r)
            (contactGenerator opsQ nrmsW 0 engBase.generatorsPerContact (ptsW.length - 1) 0)) :=
  ⟨sncW_success, by simp [ptsW],
    c8_b0_coefficient opsQ cddNone junkQ engBase ptsW nrmsW 0 Algorithm.LP sncW_success
      (by simp [ptsW])⟩

end RobustEquilibrium
